import Mathlib

/-!
Verification of the statistics aggregation and durable-storage core of the
keyboard-monitor repository.  The Python sources are shallowly embedded:
Python dicts (which preserve insertion order) become association lists,
`datetime` values become abstract timestamps, and every fallible I/O action
is modelled by an explicit outcome parameter.
-/

namespace KeyboardMonitor

/-! ## Association lists modelling Python dicts

Python dicts keep insertion order; a lookup of an existing key keeps its
position, and a fresh key is appended at the end.  `assocFind` models
`d.get(k)` / `k in d`, and `assocUpd k d0 f` models the ubiquitous source
pattern `if k not in m: m[k] = d0` followed by an in-place mutation `f` of
`m[k]`. -/

def assocFind (k : String) : List (String × α) → Option α
  | [] => none
  | (k₁, v) :: rest => if k₁ = k then some v else assocFind k rest

def assocUpd (k : String) (d0 : α) (f : α → α) : List (String × α) → List (String × α)
  | [] => [(k, f d0)]
  | (k₁, v) :: rest => if k₁ = k then (k₁, f v) :: rest else (k₁, v) :: assocUpd k d0 f rest

/-! ## The in-memory statistics document (DataStore.data)

Shapes taken from `DataStore._get_empty_data_structure` and the update
methods in src/data_store.py.  Counts start at 0 and are only ever
incremented by the write path, so they are modelled as `Nat`. -/

structure ModEntry where
  count : Nat
  preceded_by : List (String × Nat)
deriving DecidableEq, Repr

structure KeyEntry where
  key_name : String
  count : Nat
  modifier_combinations : List (String × ModEntry)
deriving DecidableEq, Repr

structure SeqEntry where
  sequence : String
  count : Nat
deriving DecidableEq, Repr

structure TotalStats where
  total_keystrokes : Nat
  first_record_date : Option String
  last_record_date : Option String
  version : String
deriving DecidableEq, Repr

structure StatisticsDocument where
  total_statistics : TotalStats
  key_statistics : List (String × KeyEntry)
  key_sequences : List (String × List (String × SeqEntry))
deriving DecidableEq, Repr

namespace DataStore

/-- DataStore._get_empty_data_structure. -/
def get_empty_data_structure : StatisticsDocument :=
  { total_statistics :=
      { total_keystrokes := 0
        first_record_date := none
        last_record_date := none
        version := "1.0" }
    key_statistics := []
    key_sequences := [("bigrams", []), ("trigrams", [])] }

/-- DataStore.update_key_statistics (src/data_store.py lines 140-185).
`today` abstracts `date.today().isoformat()`.  The Python code first
creates a zero entry when the key (or modifier combination, or
predecessor slot) is absent and then increments it; `assocUpd` with a
zero default and an incrementing function captures exactly that. -/
def update_key_statistics (d : StatisticsDocument) (key_code key_name modifiers : String)
    (previous_key : Option String) (today : String) : StatisticsDocument :=
  let ts := d.total_statistics
  let ts :=
    { ts with
      total_keystrokes := ts.total_keystrokes + 1
      first_record_date := some (ts.first_record_date.getD today)
      last_record_date := some today }
  let newKey : KeyEntry := { key_name := key_name, count := 0, modifier_combinations := [] }
  let newMod : ModEntry := { count := 0, preceded_by := [] }
  let bumpMod : ModEntry → ModEntry := fun m =>
    let m := { m with count := m.count + 1 }
    match previous_key with
    | none => m
    | some pk => { m with preceded_by := assocUpd pk 0 (· + 1) m.preceded_by }
  let bumpKey : KeyEntry → KeyEntry := fun e =>
    { e with
      count := e.count + 1
      modifier_combinations := assocUpd modifiers newMod bumpMod e.modifier_combinations }
  { d with
    total_statistics := ts
    key_statistics := assocUpd key_code newKey bumpKey d.key_statistics }

/-- DataStore._get_key_name. -/
def get_key_name (d : StatisticsDocument) (key_code : String) : String :=
  match assocFind key_code d.key_statistics with
  | some e => e.key_name
  | none => "Key_" ++ key_code

/-- DataStore.update_sequence_statistics (src/data_store.py lines 187-209).
The source first creates an empty per-type dict when `sequence_type` is
absent and then creates/increments the sequence entry; both creation
paths are captured by `assocUpd` with an empty default. -/
def update_sequence_statistics (d : StatisticsDocument) (sequence : List String)
    (sequence_type : String) : StatisticsDocument :=
  let sequence_key := String.intercalate "_" sequence
  let sequence_display := String.intercalate "->" (sequence.map (get_key_name d))
  let newEntry : SeqEntry := { sequence := sequence_display, count := 0 }
  { d with
    key_sequences :=
      assocUpd sequence_type []
        (fun m => assocUpd sequence_key newEntry (fun e => { e with count := e.count + 1 }) m)
        d.key_sequences }

end DataStore

/-- Sum of all per-key counts, the right-hand side of the additivity
invariant `total_keystrokes = sum of KeyEntry.count`. -/
def keySum (d : StatisticsDocument) : Nat :=
  (d.key_statistics.map (fun p => p.2.count)).sum

theorem assocUpd_sum_count (k : String) (d0 : α) (f : α → α) (g : α → Nat)
    (hf : ∀ v, g (f v) = g v + 1) (hd : g d0 = 0) :
    ∀ l : List (String × α),
      ((assocUpd k d0 f l).map (fun p => g p.2)).sum = ((l.map (fun p => g p.2)).sum) + 1 := by
  intro l
  induction l with
  | nil => simp [assocUpd, hf, hd]
  | cons hd₁ tl ih =>
    obtain ⟨k₁, v⟩ := hd₁
    by_cases hk : k₁ = k
    · simp [assocUpd, hk, hf]
      omega
    · simp [assocUpd, hk, ih]
      omega

theorem keySum_update_key (d : StatisticsDocument) (kc kn mods : String)
    (prev : Option String) (today : String) :
    keySum (DataStore.update_key_statistics d kc kn mods prev today) = keySum d + 1 := by
  unfold keySum DataStore.update_key_statistics
  exact assocUpd_sum_count kc _ _ KeyEntry.count (fun v => rfl) rfl d.key_statistics

theorem total_update_key (d : StatisticsDocument) (kc kn mods : String)
    (prev : Option String) (today : String) :
    (DataStore.update_key_statistics d kc kn mods prev today).total_statistics.total_keystrokes
      = d.total_statistics.total_keystrokes + 1 := rfl

/-! ## JSON values and DataStore._validate_data

`JValue` models what `json.load` can produce for this format.  Python
bools count as ints for `isinstance(x, int)` (bool is a subclass of int),
which `isIntLike` reproduces. -/

inductive JValue where
  | null
  | bool (b : Bool)
  | int (n : Int)
  | str (s : String)
  | arr (elems : List JValue)
  | obj (fields : List (String × JValue))

/-- Models `isinstance(x, int)` in Python, where `True`/`False` are ints. -/
def isIntLike : JValue → Bool
  | .int _ => true
  | .bool _ => true
  | _ => false

namespace DataStore

/-- DataStore._validate_data (src/data_store.py lines 295-323): the three
required top-level keys must be present, and `total_statistics` must have
a `total_keystrokes` entry that `isinstance(_, int)` accepts.  A non-dict
value at the top level, or a non-dict `total_statistics`, makes the
Python `in` / `.get` calls raise, which the blanket `except` converts to
`False`; so does a missing `total_keystrokes` (`.get` returns `None`,
which is not an int).  No sign check is performed. -/
def validate_data : JValue → Bool
  | .obj fields =>
      if (assocFind "total_statistics" fields).isSome
          && (assocFind "key_statistics" fields).isSome
          && (assocFind "key_sequences" fields).isSome then
        match assocFind "total_statistics" fields with
        | some (.obj ts) => isIntLike ((assocFind "total_keystrokes" ts).getD .null)
        | _ => false
      else false
  | _ => false

end DataStore

/-! ## Serialization

`json.dump` writes the in-memory document in the shape produced by
`_get_empty_data_structure` and the update methods; `serialize` is that
shape at the `JValue` level.  The JSON text round trip is the identity on
this schema (string keys, int counts, string-or-null dates). -/

def serializeModEntry (m : ModEntry) : JValue :=
  .obj [("count", .int m.count),
        ("preceded_by", .obj (m.preceded_by.map (fun p => (p.1, JValue.int p.2))))]

def serializeKeyEntry (e : KeyEntry) : JValue :=
  .obj [("key_name", .str e.key_name),
        ("count", .int e.count),
        ("modifier_combinations",
          .obj (e.modifier_combinations.map (fun p => (p.1, serializeModEntry p.2))))]

def serializeSeqEntry (s : SeqEntry) : JValue :=
  .obj [("sequence", .str s.sequence), ("count", .int s.count)]

def serializeDate : Option String → JValue
  | none => .null
  | some s => .str s

def serialize (d : StatisticsDocument) : JValue :=
  .obj [("total_statistics",
          .obj [("total_keystrokes", .int d.total_statistics.total_keystrokes),
                ("first_record_date", serializeDate d.total_statistics.first_record_date),
                ("last_record_date", serializeDate d.total_statistics.last_record_date),
                ("version", .str d.total_statistics.version)]),
        ("key_statistics",
          .obj (d.key_statistics.map (fun p => (p.1, serializeKeyEntry p.2)))),
        ("key_sequences",
          .obj (d.key_sequences.map
            (fun p => (p.1, JValue.obj (p.2.map (fun q => (q.1, serializeSeqEntry q.2)))))))]

/-- Every document this process serializes passes its own validation. -/
theorem validate_serialize (d : StatisticsDocument) :
    DataStore.validate_data (serialize d) = true := by
  simp [serialize, DataStore.validate_data, assocFind, isIntLike]

/-! ## Filesystem model and DataStore.save_data

The primary data file only ever holds documents this process has written
(the closed system of the reachability claims), so its content is a
`StatisticsDocument`.  The temporary file left behind by an interrupted
write is tracked separately; backups are kept newest first, mirroring the
modification-time sort in the source. -/

inductive TempContent where
  | incomplete
  | full (d : StatisticsDocument)
deriving DecidableEq

structure FS where
  primary : Option StatisticsDocument
  temp : Option TempContent
  backups : List StatisticsDocument
deriving DecidableEq

/-- Injected I/O fault for one save attempt. -/
inductive SaveOutcome where
  | ok
  | failOpen
  | failWrite
  | failMove
deriving DecidableEq

namespace DataStore

/-- DataStore._create_backup plus _cleanup_old_backups (keep_count 10):
when the primary file exists, push a compressed snapshot of it and trim
to the newest 10.  `backupOk = false` models an exception inside
_create_backup, which that method catches and swallows itself. -/
def create_backup (backupOk : Bool) (fs : FS) : FS :=
  if backupOk then
    match fs.primary with
    | some content => { fs with backups := (content :: fs.backups).take 10 }
    | none => fs
  else fs

/-- DataStore.save_data (src/data_store.py lines 104-138).  Returns the
reported success, the in-memory document after the call (the method never
assigns `self.data`), and the filesystem.  On `ok` the temp file is
written in full and then atomically renamed over the primary.  On any
failure the `except` block unlinks the dangling temp file when present
and returns `False`. -/
def save_data (d : StatisticsDocument) (createBackup backupOk : Bool)
    (outcome : SaveOutcome) (fs : FS) : Bool × StatisticsDocument × FS :=
  let fs1 := if createBackup then create_backup backupOk fs else fs
  match outcome with
  | .ok =>
      let fs2 := { fs1 with temp := some (.full d) }
      (true, d, { fs2 with primary := some d, temp := none })
  | .failOpen =>
      (false, d, { fs1 with temp := none })
  | .failWrite =>
      let fs2 := { fs1 with temp := some .incomplete }
      (false, d, { fs2 with temp := none })
  | .failMove =>
      let fs2 := { fs1 with temp := some (.full d) }
      (false, d, { fs2 with temp := none })

end DataStore

/-! ## Closed-system transition relation

The state of one DataStore together with the files it owns.  Every
operation of the claim (update_key_statistics, update_sequence_statistics,
save_data with either backup flag and any I/O outcome, load_data) is a
step; the file system is touched only by these steps, so the primary file
and the backups always hold documents this process serialized. -/

structure Sys where
  mem : StatisticsDocument
  fs : FS
deriving DecidableEq

namespace DataStore

/-- DataStore._restore_from_backup in the closed system: with no backups,
fall back to the empty structure and report success; otherwise decompress
the newest backup over the primary file and re-run load_data.  The
restored file is a serialized document, so the re-run adopts it
(`validate_serialize`). -/
def restore_step (s : Sys) : Sys :=
  match s.fs.backups with
  | [] => { s with mem := get_empty_data_structure }
  | b :: _ => { mem := b, fs := { s.fs with primary := some b } }

/-- DataStore.load_data (src/data_store.py lines 71-102) in the closed
system: a missing file yields the empty structure and success; an
existing file parses back to the document that was saved and is adopted
when it validates, otherwise the backup path runs. -/
def load_step (s : Sys) : Sys :=
  match s.fs.primary with
  | none => { s with mem := get_empty_data_structure }
  | some d => if validate_data (serialize d) then { s with mem := d } else restore_step s

end DataStore

/-- One DataStore operation of the claim. -/
inductive Step : Sys → Sys → Prop where
  | update_key (s : Sys) (kc kn mods : String) (prev : Option String) (today : String) :
      Step s { s with mem := DataStore.update_key_statistics s.mem kc kn mods prev today }
  | update_seq (s : Sys) (sq : List String) (ty : String) :
      Step s { s with mem := DataStore.update_sequence_statistics s.mem sq ty }
  | save (s : Sys) (cb bok : Bool) (outcome : SaveOutcome) :
      Step s { mem := (DataStore.save_data s.mem cb bok outcome s.fs).2.1
               fs := (DataStore.save_data s.mem cb bok outcome s.fs).2.2 }
  | load (s : Sys) :
      Step s (DataStore.load_step s)

/-- Initial state: empty document, no data file yet, no backups. -/
def initSys : Sys :=
  { mem := DataStore.get_empty_data_structure
    fs := { primary := none, temp := none, backups := [] } }

def Reachable (s : Sys) : Prop := Relation.ReflTransGen Step initSys s

/-- The additivity invariant on one document. -/
def Additive (d : StatisticsDocument) : Prop :=
  d.total_statistics.total_keystrokes = keySum d

/-- Strengthened invariant: every live or durable document is additive. -/
def SysInv (s : Sys) : Prop :=
  Additive s.mem
    ∧ (∀ d, s.fs.primary = some d → Additive d)
    ∧ (∀ d, d ∈ s.fs.backups → Additive d)

theorem sysInv_init : SysInv initSys := by
  refine ⟨rfl, ?_, ?_⟩ <;> simp [initSys]

theorem create_backup_primary (bok : Bool) (fs : FS) :
    (DataStore.create_backup bok fs).primary = fs.primary := by
  unfold DataStore.create_backup
  cases bok
  · simp
  · rcases h : fs.primary with _ | p <;> simp [h]

theorem create_backup_backups (bok : Bool) (fs : FS) :
    ∀ d ∈ (DataStore.create_backup bok fs).backups, d ∈ fs.backups ∨ fs.primary = some d := by
  intro d hd
  unfold DataStore.create_backup at hd
  cases bok with
  | false =>
      simp at hd
      exact Or.inl hd
  | true =>
      rcases h : fs.primary with _ | p <;> rw [h] at hd <;> simp at hd
      · exact Or.inl hd
      · rcases hd with h2 | h2
        · exact Or.inr (by rw [h2])
        · exact Or.inl (List.take_subset _ _ h2)

theorem save_data_mem (d : StatisticsDocument) (cb bok : Bool) (oc : SaveOutcome) (fs : FS) :
    (DataStore.save_data d cb bok oc fs).2.1 = d := by
  cases oc <;> rfl

theorem save_data_primary (d : StatisticsDocument) (cb bok : Bool) (oc : SaveOutcome) (fs : FS) :
    (DataStore.save_data d cb bok oc fs).2.2.primary
      = if oc = SaveOutcome.ok then some d else fs.primary := by
  have h1 : (if cb then DataStore.create_backup bok fs else fs).primary = fs.primary := by
    cases cb <;> simp [create_backup_primary]
  cases oc <;> simp [DataStore.save_data, h1]

theorem save_data_backups (d : StatisticsDocument) (cb bok : Bool) (oc : SaveOutcome) (fs : FS) :
    ∀ b ∈ (DataStore.save_data d cb bok oc fs).2.2.backups,
      b ∈ fs.backups ∨ fs.primary = some b := by
  have h1 : ∀ b ∈ (if cb then DataStore.create_backup bok fs else fs).backups,
      b ∈ fs.backups ∨ fs.primary = some b := by
    cases cb
    · simp
      intro b hb
      exact Or.inl hb
    · exact create_backup_backups bok fs
  cases oc <;> simpa [DataStore.save_data] using h1

theorem sysInv_step {s s₁ : Sys} (hs : SysInv s) (h : Step s s₁) : SysInv s₁ := by
  obtain ⟨hmem, hprim, hback⟩ := hs
  cases h with
  | update_key kc kn mods prev today =>
      refine ⟨?_, hprim, hback⟩
      unfold Additive at hmem ⊢
      rw [total_update_key, keySum_update_key, hmem]
  | update_seq sq ty =>
      refine ⟨?_, hprim, hback⟩
      unfold Additive at hmem ⊢
      unfold DataStore.update_sequence_statistics keySum at *
      simp
      exact hmem
  | save cb bok outcome =>
      refine ⟨?_, ?_, ?_⟩
      · show Additive (DataStore.save_data s.mem cb bok outcome s.fs).2.1
        rw [save_data_mem]
        exact hmem
      · intro d hd
        have hd₁ : (DataStore.save_data s.mem cb bok outcome s.fs).2.2.primary = some d := hd
        rw [save_data_primary] at hd₁
        split at hd₁
        · exact (Option.some.inj hd₁) ▸ hmem
        · exact hprim d hd₁
      · intro d hd
        have hd₁ : d ∈ (DataStore.save_data s.mem cb bok outcome s.fs).2.2.backups := hd
        rcases save_data_backups s.mem cb bok outcome s.fs d hd₁ with h2 | h2
        · exact hback d h2
        · exact hprim d h2
  | load =>
      rcases hp : s.fs.primary with _ | d
      · have hstep : DataStore.load_step s = { s with mem := DataStore.get_empty_data_structure } := by
          unfold DataStore.load_step
          rw [hp]
        rw [hstep]
        refine ⟨rfl, ?_, hback⟩
        intro d hd
        exact hprim d hd
      · have hstep : DataStore.load_step s = { s with mem := d } := by
          unfold DataStore.load_step
          rw [hp]
          simp [validate_serialize]
        rw [hstep]
        exact ⟨hprim d hp, fun e he => hprim e he, hback⟩

theorem sysInv_reachable {s : Sys} (h : Reachable s) : SysInv s := by
  induction h with
  | refl => exact sysInv_init
  | tail _ hstep ih => exact sysInv_step ih hstep

/-- C1: for every document state reachable from the empty document by any
sequence of update_key_statistics, update_sequence_statistics, save_data
and load_data operations, total_statistics.total_keystrokes equals the
sum of key_statistics entry counts. -/
theorem C1_additivity_invariant (s : Sys) (h : Reachable s) :
    s.mem.total_statistics.total_keystrokes = keySum s.mem :=
  (sysInv_reachable h).1

theorem C1_additivity_invariant_witness :
    Reachable { mem := DataStore.update_key_statistics initSys.mem "65" "A" "none" none
                  "2026-01-01"
                fs := initSys.fs }
      ∧ (DataStore.update_key_statistics initSys.mem "65" "A" "none" none
          "2026-01-01").total_statistics.total_keystrokes
        = keySum (DataStore.update_key_statistics initSys.mem "65" "A" "none" none
            "2026-01-01") := by
  have hr : Reachable
      { mem := (DataStore.update_key_statistics initSys.mem "65" "A" "none" none
          "2026-01-01")
        fs := initSys.fs } :=
    Relation.ReflTransGen.single (Step.update_key initSys "65" "A" "none" none "2026-01-01")
  exact ⟨hr, C1_additivity_invariant _ hr⟩

/-- C2: a save_data call that hits any I/O failure while writing reports
failure, leaves no dangling temporary file behind, and returns with the
in-memory document exactly as it was before the call. -/
theorem C2_failed_save_clean (d : StatisticsDocument) (cb bok : Bool) (oc : SaveOutcome)
    (fs : FS) (h : oc ≠ SaveOutcome.ok) :
    (DataStore.save_data d cb bok oc fs).1 = false
      ∧ (DataStore.save_data d cb bok oc fs).2.1 = d
      ∧ (DataStore.save_data d cb bok oc fs).2.2.temp = none := by
  cases oc with
  | ok => exact absurd rfl h
  | failOpen => exact ⟨rfl, rfl, rfl⟩
  | failWrite => exact ⟨rfl, rfl, rfl⟩
  | failMove => exact ⟨rfl, rfl, rfl⟩

theorem C2_failed_save_clean_witness :
    SaveOutcome.failWrite ≠ SaveOutcome.ok
      ∧ ((DataStore.save_data DataStore.get_empty_data_structure true true SaveOutcome.failWrite
            { primary := none, temp := none, backups := [] }).1 = false
        ∧ (DataStore.save_data DataStore.get_empty_data_structure true true SaveOutcome.failWrite
            { primary := none, temp := none, backups := [] }).2.1
          = DataStore.get_empty_data_structure
        ∧ (DataStore.save_data DataStore.get_empty_data_structure true true SaveOutcome.failWrite
            { primary := none, temp := none, backups := [] }).2.2.temp = none) :=
  ⟨by decide, C2_failed_save_clean _ true true _ _ (by decide)⟩

/-! ## load_data over arbitrary file contents

For the recovery claims the file system may hold anything, including
unparseable bytes.  `FileBytes.json v` is well-formed JSON text denoting
`v`; `FileBytes.malformed` is text on which `json.load` raises.  Backups
are listed newest first (the source sorts by modification time,
descending, and takes the head).  Decompressing a backup reproduces its
content byte for byte. -/

inductive FileBytes where
  | json (v : JValue)
  | malformed

structure LoadSys where
  mem : JValue
  primary : Option FileBytes
  backups : List FileBytes

/-- The dict built by DataStore._get_empty_data_structure, as the raw
JSON-level value that `self.data` holds. -/
def emptyDataJson : JValue :=
  .obj [("total_statistics",
          .obj [("total_keystrokes", .int 0),
                ("first_record_date", .null),
                ("last_record_date", .null),
                ("version", .str "1.0")]),
        ("key_statistics", .obj []),
        ("key_sequences", .obj [("bigrams", .obj []), ("trigrams", .obj [])])]

namespace DataStore

/-- DataStore.load_data (src/data_store.py lines 71-102) together with the
_restore_from_backup path it calls (lines 359-386), which re-invokes
load_data after decompressing the newest backup over the primary file.
The two methods recurse into each other with no progress measure in the
source; `fuel` bounds the number of load_data activations, and `none`
means the recursion was still running when the bound was hit.
A missing primary file or an empty backup directory resets `self.data`
to the empty structure and reports success; a parsed and validated file
is adopted. -/
def load_dataF : Nat → LoadSys → Option (Bool × LoadSys)
  | 0, _ => none
  | n + 1, s =>
    match s.primary with
    | none => some (true, { s with mem := emptyDataJson })
    | some content =>
      match content with
      | .json v =>
          if validate_data v then some (true, { s with mem := v })
          else
            match s.backups with
            | [] => some (true, { s with mem := emptyDataJson })
            | b :: _ => load_dataF n { s with primary := some b }
      | .malformed =>
          match s.backups with
          | [] => some (true, { s with mem := emptyDataJson })
          | b :: _ => load_dataF n { s with primary := some b }

end DataStore

/-- The C5 failing configuration: the primary file is unparseable and the
newest backup decompresses to the same unparseable bytes. -/
def corruptPair : LoadSys :=
  { mem := emptyDataJson
    primary := some .malformed
    backups := [.malformed] }

/-- C5: the claim asserts load_data terminates with a boolean for every
file and backup content.  The code violates it: with a corrupt primary
file and a corrupt newest backup, load_data restores the backup over the
primary and re-invokes itself on an identical configuration, so no
amount of fuel completes the recursion (in CPython the mutual recursion
runs until RecursionError). -/
theorem C5_load_recursion_diverges :
    ∀ n : Nat, DataStore.load_dataF n corruptPair = none := by
  intro n
  induction n with
  | zero => rfl
  | succ n ih =>
      show DataStore.load_dataF n corruptPair = none
      exact ih

/-- A parsed file with the three required keys whose total_keystrokes
field is the integer `n`. -/
def mkTotalsDoc (n : Int) : JValue :=
  .obj [("total_statistics", .obj [("total_keystrokes", .int n)]),
        ("key_statistics", .obj []),
        ("key_sequences", .obj [])]

/-- A store whose primary file holds `mkTotalsDoc (-1)` and which has a
healthy backup available, so the backup-recovery route is open. -/
def negTotalsSys : LoadSys :=
  { mem := emptyDataJson
    primary := some (.json (mkTotalsDoc (-1)))
    backups := [.json emptyDataJson] }

/-- C6 counterexample: a file whose total_keystrokes is the negative
integer -1 passes _validate_data, and load_data adopts it rather than
routing to the backup-recovery path — refuting the claimed non-negativity
check at this concrete input. -/
theorem C6_counterexample_negative_adopted :
    DataStore.validate_data (mkTotalsDoc (-1)) = true
      ∧ DataStore.load_dataF 1 negTotalsSys
        = some (true, { negTotalsSys with mem := mkTotalsDoc (-1) }) :=
  ⟨rfl, rfl⟩

/-- C6 amended: load_data adopts a parsed file exactly under
_validate_data, which requires the three top-level keys and requires
total_statistics.total_keystrokes to be a Python int, with no sign check:
every integer value, negative ones included, passes validation and the
document is adopted; only when validation fails (or parsing fails) does
load_data route to the backup-recovery path. -/
theorem C6_validation_ignores_sign :
    (∀ (n : Int) (s : LoadSys), s.primary = some (.json (mkTotalsDoc n)) →
        DataStore.validate_data (mkTotalsDoc n) = true
          ∧ DataStore.load_dataF 1 s = some (true, { s with mem := mkTotalsDoc n }))
      ∧ (∀ (v : JValue) (s : LoadSys) (m : Nat), s.primary = some (.json v) →
          DataStore.validate_data v = false →
          DataStore.load_dataF (m + 1) s
            = match s.backups with
              | [] => some (true, { s with mem := emptyDataJson })
              | b :: _ => DataStore.load_dataF m { s with primary := some b }) := by
  constructor
  · intro n s h
    have hv : DataStore.validate_data (mkTotalsDoc n) = true := by
      simp [mkTotalsDoc, DataStore.validate_data, assocFind, isIntLike]
    refine ⟨hv, ?_⟩
    unfold DataStore.load_dataF
    rw [h]
    simp [hv]
  · intro v s m h hv
    obtain ⟨mem, prim, backs⟩ := s
    change prim = some (.json v) at h
    subst h
    cases backs <;> simp [DataStore.load_dataF, hv]

theorem C6_validation_ignores_sign_witness :
    negTotalsSys.primary = some (.json (mkTotalsDoc (-1)))
      ∧ (DataStore.validate_data (mkTotalsDoc (-1)) = true
        ∧ DataStore.load_dataF 1 negTotalsSys
          = some (true, { negTotalsSys with mem := mkTotalsDoc (-1) })) :=
  ⟨rfl, C6_validation_ignores_sign.1 (-1) negTotalsSys rfl⟩

/-! ## KeyboardLogger: modifier canonicalization

`pressed_modifiers` is a Python set of modifier names; on each key press
`_get_modifier_combination` (src/logger.py lines 309-316) returns "none"
for the empty set and otherwise the alphabetically sorted names joined
with "+".  Python compares strings by code points; `strLe` is that order
and `pysorted` is `sorted()`.  A presentation of the set is any
duplicate-free list of its members. -/

def charListLe : List Char → List Char → Bool
  | [], _ => true
  | _ :: _, [] => false
  | c :: cs, d :: ds => if c = d then charListLe cs ds else decide (c < d)

def strLe (a b : String) : Bool := charListLe a.data b.data

def insertStr (s : String) : List String → List String
  | [] => [s]
  | t :: rest => if strLe s t then s :: t :: rest else t :: insertStr s rest

def pysorted (l : List String) : List String :=
  match l with
  | [] => []
  | s :: rest => insertStr s (pysorted rest)

namespace KeyboardLogger

/-- KeyboardLogger._get_modifier_combination on a presentation of the
pressed-modifier set. -/
def get_modifier_combination (pressed : List String) : String :=
  if pressed.isEmpty then "none"
  else String.intercalate "+" (pysorted pressed)

/-- One keystroke as _on_key_press records it: the modifier set is
canonicalized by _get_modifier_combination before
DataStore.update_key_statistics ever sees it (src/logger.py lines
235-243). -/
def record_key_press (d : StatisticsDocument) (key_code key_name : String)
    (pressed : List String) (previous_key : Option String) (today : String) :
    StatisticsDocument :=
  DataStore.update_key_statistics d key_code key_name (get_modifier_combination pressed)
    previous_key today

end KeyboardLogger

theorem pair_presentation (l : List String)
    (h : ∀ s, s ∈ l ↔ (s = "ctrl" ∨ s = "shift")) (hn : l.Nodup) :
    l = ["ctrl", "shift"] ∨ l = ["shift", "ctrl"] := by
  cases l with
  | nil => exact absurd ((h "ctrl").mpr (Or.inl rfl)) (List.not_mem_nil _)
  | cons a t =>
    cases t with
    | nil =>
        have hc := (h "ctrl").mpr (Or.inl rfl)
        have hs := (h "shift").mpr (Or.inr rfl)
        simp at hc hs
        rw [← hc] at hs
        exact absurd hs (by decide)
    | cons b u =>
        have ha := (h a).mp (by simp)
        have hb := (h b).mp (by simp)
        have hab : a ≠ b := by
          simp [List.nodup_cons] at hn
          exact fun he => hn.1.1 (he ▸ rfl)
        have hu : u = [] := by
          cases u with
          | nil => rfl
          | cons c v =>
              have hcmem := (h c).mp (by simp)
              have hnotb : c ≠ b ∧ c ≠ a := by
                simp [List.nodup_cons] at hn
                constructor
                · intro he
                  exact hn.2.1.1 he.symm
                · intro he
                  exact hn.1.2.1 he.symm
              rcases ha with rfl | rfl <;> rcases hb with rfl | rfl <;>
                rcases hcmem with rfl | rfl <;>
                first
                  | exact absurd rfl hab
                  | exact absurd rfl hnotb.1
                  | exact absurd rfl hnotb.2
        subst hu
        rcases ha with rfl | rfl <;> rcases hb with rfl | rfl
        · exact absurd rfl hab
        · exact Or.inl rfl
        · exact Or.inr rfl
        · exact absurd rfl hab

theorem canon_pair (l : List String)
    (h : ∀ s, s ∈ l ↔ (s = "ctrl" ∨ s = "shift")) (hn : l.Nodup) :
    KeyboardLogger.get_modifier_combination l = "ctrl+shift" := by
  rcases pair_presentation l h hn with rfl | rfl <;> rfl

/-- C3: two keystrokes on the same key whose pressed-modifier set is
presented once in the order shift, ctrl and once in the order ctrl,
shift accumulate into a single ModifierEntry under the canonical key
"ctrl+shift"; the spelling "shift+ctrl" never appears as a map key. -/
theorem C3_modifier_canonicalization (l₁ l₂ : List String)
    (h₁ : ∀ s, s ∈ l₁ ↔ (s = "ctrl" ∨ s = "shift")) (hn₁ : l₁.Nodup)
    (h₂ : ∀ s, s ∈ l₂ ↔ (s = "ctrl" ∨ s = "shift")) (hn₂ : l₂.Nodup) :
    assocFind "65"
        (KeyboardLogger.record_key_press
          (KeyboardLogger.record_key_press DataStore.get_empty_data_structure
            "65" "A" l₁ none "2026-01-01")
          "65" "A" l₂ none "2026-01-01").key_statistics
      = some { key_name := "A", count := 2,
               modifier_combinations := [("ctrl+shift", { count := 2, preceded_by := [] })] } := by
  unfold KeyboardLogger.record_key_press
  rw [canon_pair l₁ h₁ hn₁, canon_pair l₂ h₂ hn₂]
  rfl

theorem C3_modifier_canonicalization_witness :
    (∀ s, s ∈ ["shift", "ctrl"] ↔ (s = "ctrl" ∨ s = "shift"))
      ∧ (∀ s, s ∈ ["ctrl", "shift"] ↔ (s = "ctrl" ∨ s = "shift"))
      ∧ assocFind "65"
          (KeyboardLogger.record_key_press
            (KeyboardLogger.record_key_press DataStore.get_empty_data_structure
              "65" "A" ["shift", "ctrl"] none "2026-01-01")
            "65" "A" ["ctrl", "shift"] none "2026-01-01").key_statistics
        = some { key_name := "A", count := 2,
                 modifier_combinations := [("ctrl+shift", { count := 2, preceded_by := [] })] } := by
  refine ⟨?_, ?_, ?_⟩
  · intro s
    simp
    try tauto
  · intro s
    simp
    try tauto
  · exact C3_modifier_canonicalization ["shift", "ctrl"] ["ctrl", "shift"]
      (by intro s; simp; try tauto) (by decide)
      (by intro s; simp; try tauto) (by decide)

/-! ## DataStore.get_statistics and the shallow copy

`get_statistics` returns `self.data.copy()` (src/data_store.py lines
211-223): a new top-level dict whose three slots still hold references to
the same nested objects as the live `self.data`.  The update methods
mutate those nested objects in place and never rebind a top-level slot of
`self.data`, so each of the three sub-objects exists exactly once for the
life of the store: addresses 0, 1, 2 name them, the heap carries their
current contents (a `StatisticsDocument`), and a top-level document dict
is a record of three addresses. -/

structure DocDict where
  total_addr : Nat
  keys_addr : Nat
  seqs_addr : Nat
deriving DecidableEq, Repr

/-- The dict bound to `self.data`. -/
def liveDict : DocDict := { total_addr := 0, keys_addr := 1, seqs_addr := 2 }

namespace DataStore

/-- DataStore.get_statistics: `self.data.copy()` builds a new dict with
the same three bindings; the nested objects are not copied. -/
def get_statistics (v : DocDict) : DocDict :=
  { total_addr := v.total_addr, keys_addr := v.keys_addr, seqs_addr := v.seqs_addr }

end DataStore

/-- Reading `d["key_statistics"]` through a dict `d = v` when the heap
(the current contents of the unique sub-objects) is `h`. -/
def readKeyStatistics (h : StatisticsDocument) (v : DocDict) :
    Option (List (String × KeyEntry)) :=
  if v.keys_addr = 1 then some h.key_statistics else none

/-- Reading `d["total_statistics"]` through a dict `d = v` on heap `h`. -/
def readTotalStatistics (h : StatisticsDocument) (v : DocDict) : Option TotalStats :=
  if v.total_addr = 0 then some h.total_statistics else none

/-- C4: the claim says get_statistics returns an independent copy, so that
a later update_key_statistics call leaves everything observable through
the returned dict unchanged.  The code violates it: `dict.copy()` is
shallow, the snapshot taken on the empty store observes no keys before
the update and observes key 65 with count 1 after it. -/
theorem C4_snapshot_sees_update :
    DataStore.get_statistics liveDict = liveDict
      ∧ readKeyStatistics DataStore.get_empty_data_structure
          (DataStore.get_statistics liveDict) = some []
      ∧ readKeyStatistics
          (DataStore.update_key_statistics DataStore.get_empty_data_structure
            "65" "A" "none" none "2026-01-01")
          (DataStore.get_statistics liveDict)
        = some [("65", { key_name := "A", count := 1,
                         modifier_combinations := [("none", { count := 1, preceded_by := [] })] })] :=
  ⟨rfl, rfl, rfl⟩

/-! ## SaveManager (src/save_manager.py)

Timers are daemon `threading.Timer` objects; a pending idle timer is
modelled by its deadline.  `continuous_timer` is declared in __init__ and
cancelled in stop but no code path ever arms it.  All `datetime.now()`
calls within a single method invocation are modelled by one timestamp. -/

structure SMConfig where
  idle_save_delay : Nat
  continuous_save_interval : Nat
  keystroke_batch_save : Nat
deriving DecidableEq, Repr

structure SaveStatsR where
  idle_saves : Nat
  continuous_saves : Nat
  batch_saves : Nat
  total_saves : Nat
deriving DecidableEq, Repr

structure SMState where
  idle_timer : Option Nat
  continuous_timer : Option Nat
  last_keystroke_time : Option Nat
  continuous_session_start : Option Nat
  keystroke_count_since_save : Nat
  is_running : Bool
  save_stats : SaveStatsR
deriving DecidableEq, Repr

/-- SaveManager.__init__ (lines 24-58). -/
def initialSMState : SMState :=
  { idle_timer := none
    continuous_timer := none
    last_keystroke_time := none
    continuous_session_start := none
    keystroke_count_since_save := 0
    is_running := false
    save_stats := ⟨0, 0, 0, 0⟩ }

/-- A SaveManager together with the DataStore it drives. -/
structure SMSys where
  sm : SMState
  store : StatisticsDocument
  fs : FS
deriving DecidableEq

/-- Counts of the observable effects of one scheduler call: how often
data_store.save_data was invoked, how often keystroke_count_since_save
was reset to zero (line 177), and how often continuous_session_start was
re-based (line 154). -/
structure SaveTrace where
  calls : Nat
  counter_resets : Nat
  origin_resets : Nat
deriving DecidableEq, Repr

namespace SaveManager

/-- Models `self.save_stats[f"{save_type}_saves"] += 1` (line 175): the
stats dict is created in __init__ with exactly the keys idle_saves,
continuous_saves, batch_saves and total_saves and is never extended, so
any other save type raises KeyError, returned here as `none`. -/
def incTypeStat (s : SaveStatsR) (ty : String) : Option SaveStatsR :=
  if ty = "idle" then some { s with idle_saves := s.idle_saves + 1 }
  else if ty = "continuous" then some { s with continuous_saves := s.continuous_saves + 1 }
  else if ty = "batch" then some { s with batch_saves := s.batch_saves + 1 }
  else none

/-- SaveManager._perform_save (lines 156-187).  With nothing unsaved and a
non-shutdown type it returns True immediately without touching the store.
Otherwise data_store.save_data() runs (create_backup defaults to False);
on success the per-type stats bump can raise KeyError for the types
"shutdown" and "manual", which the blanket except turns into a False
return after the disk write already happened and before the counter
reset. -/
def perform_save (oc : SaveOutcome) (ty : String) (sys : SMSys) : Bool × SMSys × SaveTrace :=
  if sys.sm.keystroke_count_since_save = 0 ∧ ty ≠ "shutdown" then
    (true, sys, ⟨0, 0, 0⟩)
  else
    let r := DataStore.save_data sys.store false true oc sys.fs
    let sys1 := { sys with fs := r.2.2 }
    if r.1 then
      match incTypeStat sys1.sm.save_stats ty with
      | none => (false, sys1, ⟨1, 0, 0⟩)
      | some st1 =>
          let st2 := { st1 with total_saves := st1.total_saves + 1 }
          (true,
            { sys1 with
              sm := { sys1.sm with save_stats := st2, keystroke_count_since_save := 0 } },
            ⟨1, 1, 0⟩)
    else (false, sys1, ⟨1, 0, 0⟩)

/-- SaveManager.on_keystroke (lines 93-116): bump the unsaved counter,
re-arm the idle timer, run the continuous-interval check (line 143-154,
re-basing the streak origin after a continuous save attempt), then the
batch fallback against the current counter value. -/
def on_keystroke (oc : SaveOutcome) (cfg : SMConfig) (now : Nat) (sys : SMSys) :
    SMSys × SaveTrace :=
  if ¬ sys.sm.is_running then (sys, ⟨0, 0, 0⟩)
  else
    let sm := { sys.sm with
      last_keystroke_time := some now
      keystroke_count_since_save := sys.sm.keystroke_count_since_save + 1 }
    let sm := { sm with idle_timer := some (now + cfg.idle_save_delay) }
    let sm := if sm.continuous_session_start = none
      then { sm with continuous_session_start := some now } else sm
    let start := sm.continuous_session_start.getD now
    let sys1 : SMSys := { sys with sm := sm }
    let step1 : SMSys × SaveTrace :=
      if cfg.continuous_save_interval ≤ now - start then
        let r := perform_save oc "continuous" sys1
        ({ r.2.1 with sm := { r.2.1.sm with continuous_session_start := some now } },
          { r.2.2 with origin_resets := r.2.2.origin_resets + 1 })
      else (sys1, ⟨0, 0, 0⟩)
    let sys2 := step1.1
    let step2 : SMSys × SaveTrace :=
      if cfg.keystroke_batch_save ≤ sys2.sm.keystroke_count_since_save then
        (perform_save oc "batch" sys2).2
      else (sys2, ⟨0, 0, 0⟩)
    (step2.1,
      ⟨step1.2.calls + step2.2.calls,
        step1.2.counter_resets + step2.2.counter_resets,
        step1.2.origin_resets + step2.2.origin_resets⟩)

/-- SaveManager.start (lines 60-70). -/
def start (now : Nat) (sys : SMSys) : SMSys :=
  if sys.sm.is_running then sys
  else
    { sys with
      sm := { sys.sm with
        is_running := true
        continuous_session_start := some now
        keystroke_count_since_save := 0 } }

/-- SaveManager.stop (lines 72-91): cancels both timers and runs one
final _perform_save("shutdown"), which skips the nothing-pending early
return. -/
def stop (oc : SaveOutcome) (sys : SMSys) : SMSys × SaveTrace :=
  if ¬ sys.sm.is_running then (sys, ⟨0, 0, 0⟩)
  else
    let sm := { sys.sm with is_running := false, idle_timer := none, continuous_timer := none }
    let r := perform_save oc "shutdown" { sys with sm := sm }
    (r.2.1, r.2.2)

/-- SaveManager.force_save (lines 204-211). -/
def force_save (oc : SaveOutcome) (sys : SMSys) : Bool × SMSys × SaveTrace :=
  perform_save oc "manual" sys

/-- One keystroke through the full pipeline: KeyboardLogger._on_key_press
updates the store (src/logger.py lines 238-243) and the monitor's
statistics callback then hands the event to SaveManager.on_keystroke
(src/keyboard_monitor.py lines 453-455).  A first keystroke records no
bigram or trigram, so no sequence update occurs for it. -/
def record_and_notify (oc : SaveOutcome) (cfg : SMConfig) (now : Nat)
    (kc kn mods : String) (prev : Option String) (today : String) (sys : SMSys) :
    SMSys × SaveTrace :=
  on_keystroke oc cfg now
    { sys with store := DataStore.update_key_statistics sys.store kc kn mods prev today }

end SaveManager

/-- C10: for every save type other than "shutdown", a call with a zero
unsaved-event counter returns True without invoking DataStore.save_data
and without changing any state; in particular force_save right after a
successful save (counter already reset to 0) reports success while
writing nothing. -/
theorem C10_zero_counter_skips_save (oc : SaveOutcome) (ty : String) (sys : SMSys)
    (h0 : sys.sm.keystroke_count_since_save = 0) (hty : ty ≠ "shutdown") :
    SaveManager.perform_save oc ty sys = (true, sys, ⟨0, 0, 0⟩)
      ∧ SaveManager.force_save oc sys = (true, sys, ⟨0, 0, 0⟩) := by
  constructor
  · unfold SaveManager.perform_save
    rw [if_pos ⟨h0, hty⟩]
  · unfold SaveManager.force_save SaveManager.perform_save
    rw [if_pos ⟨h0, by decide⟩]

theorem C10_zero_counter_skips_save_witness :
    ({ sm := initialSMState
       store := DataStore.get_empty_data_structure
       fs := { primary := none, temp := none, backups := [] } } : SMSys).sm.keystroke_count_since_save = 0
      ∧ ("idle" : String) ≠ "shutdown"
      ∧ (SaveManager.perform_save SaveOutcome.ok "idle"
            { sm := initialSMState
              store := DataStore.get_empty_data_structure
              fs := { primary := none, temp := none, backups := [] } }
          = (true,
              { sm := initialSMState
                store := DataStore.get_empty_data_structure
                fs := { primary := none, temp := none, backups := [] } }, ⟨0, 0, 0⟩)
        ∧ SaveManager.force_save SaveOutcome.ok
            { sm := initialSMState
              store := DataStore.get_empty_data_structure
              fs := { primary := none, temp := none, backups := [] } }
          = (true,
              { sm := initialSMState
                store := DataStore.get_empty_data_structure
                fs := { primary := none, temp := none, backups := [] } }, ⟨0, 0, 0⟩)) :=
  ⟨rfl, by decide, C10_zero_counter_skips_save SaveOutcome.ok "idle" _ rfl (by decide)⟩

/-- The scheduler state of the C7 counterexample: running, streak origin
at time 0, two unsaved events already pending. -/
def c7Sys : SMSys :=
  { sm := { initialSMState with
      is_running := true
      continuous_session_start := some 0
      keystroke_count_since_save := 2 }
    store := DataStore.get_empty_data_structure
    fs := { primary := none, temp := none, backups := [] } }

def c7Cfg : SMConfig :=
  { idle_save_delay := 1, continuous_save_interval := 300, keystroke_batch_save := 3 }

/-- C7 counterexample: at time 400 the event satisfies both the
continuous-interval condition (400 - 0 >= 300) and the batch-threshold
condition (2 + 1 >= 3), yet when the underlying write fails
DataStore.save_data is invoked twice for this one event — once by the
continuous path and again by the batch fallback, because the failed
continuous save left the unsaved counter at 3 — refuting "invoked exactly
once for that event". -/
theorem C7_counterexample_double_save :
    (c7Cfg.continuous_save_interval ≤ 400 - 0
        ∧ c7Cfg.keystroke_batch_save ≤ c7Sys.sm.keystroke_count_since_save + 1)
      ∧ (SaveManager.on_keystroke SaveOutcome.failWrite c7Cfg 400 c7Sys).2.calls = 2 :=
  ⟨by decide, rfl⟩

theorem perform_save_continuous_ok (sys : SMSys)
    (h : sys.sm.keystroke_count_since_save ≠ 0) :
    SaveManager.perform_save SaveOutcome.ok "continuous" sys
      = (true,
          { sm := { sys.sm with
              save_stats := { sys.sm.save_stats with
                continuous_saves := sys.sm.save_stats.continuous_saves + 1
                total_saves := sys.sm.save_stats.total_saves + 1 }
              keystroke_count_since_save := 0 }
            store := sys.store
            fs := { sys.fs with primary := some sys.store, temp := none } },
          ⟨1, 1, 0⟩) := by
  unfold SaveManager.perform_save
  rw [if_neg (by simp [h])]
  simp [DataStore.save_data, SaveManager.incTypeStat]

/-- C7 amended: when the event satisfies both the continuous-interval and
the batch-threshold condition and the underlying write succeeds,
DataStore.save_data is invoked exactly once, the unsaved-event counter is
reset exactly once and the continuous-streak origin is re-based exactly
once (the batch fallback then sees a zero counter and skips); when the
write fails, the batch fallback immediately invokes save_data a second
time within the same event and the counter is never reset. -/
theorem C7_single_trigger_on_success (cfg : SMConfig) (sys : SMSys) (now t0 : Nat)
    (hrun : sys.sm.is_running = true)
    (hstart : sys.sm.continuous_session_start = some t0)
    (hcont : cfg.continuous_save_interval ≤ now - t0)
    (hbatch : cfg.keystroke_batch_save ≤ sys.sm.keystroke_count_since_save + 1) :
    (SaveManager.on_keystroke SaveOutcome.ok cfg now sys).2 = ⟨1, 1, 1⟩ := by
  obtain ⟨⟨it, ct, lk, cs, count, run, stats⟩, store, fs⟩ := sys
  change run = true at hrun
  change cs = some t0 at hstart
  change cfg.keystroke_batch_save ≤ count + 1 at hbatch
  subst hrun hstart
  unfold SaveManager.on_keystroke
  simp only [not_true, if_false, reduceCtorEq, Option.getD_some, ite_false, eq_self_iff_true]
  rw [if_pos hcont]
  rw [perform_save_continuous_ok _ (by simp)]
  simp only []
  by_cases hb : cfg.keystroke_batch_save = 0
  · rw [if_pos (by simp [hb])]
    unfold SaveManager.perform_save
    rw [if_pos ⟨rfl, by decide⟩]
    rfl
  · rw [if_neg (by simp; omega)]
    rfl

/-- C8: after start(), one recorded keystroke, and stop() before any
timer fires (the event comes before the continuous interval elapses and
below the batch threshold, so nothing is saved by the event itself),
stop() cancels the pending timers and performs one final unconditional
save, so the document on disk holds that event. -/
theorem C8_flush_on_stop (cfg : SMConfig) (d0 : StatisticsDocument) (fs0 : FS)
    (t0 t1 : Nat) (kc kn mods : String) (prev : Option String) (today : String)
    (hcont : t1 - t0 < cfg.continuous_save_interval)
    (hbatch : 1 < cfg.keystroke_batch_save) :
    (SaveManager.stop SaveOutcome.ok
        (SaveManager.record_and_notify SaveOutcome.ok cfg t1 kc kn mods prev today
          (SaveManager.start t0
            { sm := initialSMState, store := d0, fs := fs0 })).1).1.fs.primary
      = some (DataStore.update_key_statistics d0 kc kn mods prev today)
    ∧ (SaveManager.stop SaveOutcome.ok
        (SaveManager.record_and_notify SaveOutcome.ok cfg t1 kc kn mods prev today
          (SaveManager.start t0
            { sm := initialSMState, store := d0, fs := fs0 })).1).1.sm.idle_timer = none
    ∧ (SaveManager.stop SaveOutcome.ok
        (SaveManager.record_and_notify SaveOutcome.ok cfg t1 kc kn mods prev today
          (SaveManager.start t0
            { sm := initialSMState, store := d0, fs := fs0 })).1).1.sm.continuous_timer = none
    ∧ (SaveManager.stop SaveOutcome.ok
        (SaveManager.record_and_notify SaveOutcome.ok cfg t1 kc kn mods prev today
          (SaveManager.start t0
            { sm := initialSMState, store := d0, fs := fs0 })).1).2.calls = 1 := by
  have h1 : SaveManager.start t0 { sm := initialSMState, store := d0, fs := fs0 }
      = { sm := { initialSMState with is_running := true, continuous_session_start := some t0 }
          store := d0, fs := fs0 } := rfl
  rw [h1]
  unfold SaveManager.record_and_notify SaveManager.on_keystroke
  simp only [initialSMState, not_true, if_false, reduceCtorEq, Option.getD_some, ite_false,
    eq_self_iff_true]
  rw [if_neg (show ¬ cfg.continuous_save_interval ≤ t1 - t0 by omega)]
  rw [if_neg (show ¬ cfg.keystroke_batch_save ≤ 0 + 1 by omega)]
  exact ⟨rfl, rfl, rfl, rfl⟩

theorem C8_flush_on_stop_witness :
    (5 - 0 < 300 ∧ 1 < 100)
      ∧ ((SaveManager.stop SaveOutcome.ok
            (SaveManager.record_and_notify SaveOutcome.ok
              { idle_save_delay := 1, continuous_save_interval := 300, keystroke_batch_save := 100 }
              5 "65" "A" "none" none "2026-01-01"
              (SaveManager.start 0
                { sm := initialSMState
                  store := DataStore.get_empty_data_structure
                  fs := { primary := none, temp := none, backups := [] } })).1).1.fs.primary
        = some (DataStore.update_key_statistics DataStore.get_empty_data_structure
            "65" "A" "none" none "2026-01-01")) := by
  constructor
  · constructor <;> decide
  · exact (C8_flush_on_stop
      { idle_save_delay := 1, continuous_save_interval := 300, keystroke_batch_save := 100 }
      DataStore.get_empty_data_structure
      { primary := none, temp := none, backups := [] }
      0 5 "65" "A" "none" none "2026-01-01" (by decide) (by decide)).1

theorem C7_single_trigger_on_success_witness :
    c7Sys.sm.is_running = true
      ∧ c7Sys.sm.continuous_session_start = some 0
      ∧ c7Cfg.continuous_save_interval ≤ 400 - 0
      ∧ c7Cfg.keystroke_batch_save ≤ c7Sys.sm.keystroke_count_since_save + 1
      ∧ (SaveManager.on_keystroke SaveOutcome.ok c7Cfg 400 c7Sys).2 = ⟨1, 1, 1⟩ :=
  ⟨rfl, rfl, by decide, by decide,
    C7_single_trigger_on_success c7Cfg c7Sys 400 0 rfl rfl (by decide) (by decide)⟩

/-! ## DataAnalyzer.analyze_modifier_usage

The aggregation loop of
gui/components/analytics/data_analyzer.py lines 169-184 plus the helper
_add_compound_modifier_counts (lines 735-745): a fixed five-bucket dict
is initialized, each per-key modifier-combination count is added to its
bucket when the combination string is itself a bucket key, decomposed
into its "+"-separated parts when it is compound (each part feeding its
own bucket, "win" feeding "super"), and silently dropped otherwise. -/

/-- Python `s.split("+")` over code points. -/
def splitChar (sep : Char) : List Char → List (List Char)
  | [] => [[]]
  | c :: rest =>
      let r := splitChar sep rest
      if c = sep then [] :: r
      else
        match r with
        | [] => [[c]]
        | g :: gs => (c :: g) :: gs

def pySplitPlus (s : String) : List String := (splitChar '+' s.data).map (fun l => ⟨l⟩)

/-- Python `"+" in s` (the separator is a single character). -/
def pyContainsPlus (s : String) : Bool := s.data.contains '+'

/-- Python `s.strip()`. -/
def pyStrip (s : String) : String :=
  ⟨((s.data.dropWhile Char.isWhitespace).reverse.dropWhile Char.isWhitespace).reverse⟩

namespace DataAnalyzer

def initialModifierCounts : List (String × Nat) :=
  [("none", 0), ("shift", 0), ("ctrl", 0), ("alt", 0), ("super", 0)]

/-- The per-part body of DataAnalyzer._add_compound_modifier_counts:
`mod = mod.strip()`, then add into the matching bucket, with "win"
feeding "super" for data compatibility; an unrecognized part is skipped. -/
def compoundPartStep (count : Nat) (mc : List (String × Nat)) (part : String) :
    List (String × Nat) :=
  if (assocFind (pyStrip part) mc).isSome then assocUpd (pyStrip part) 0 (· + count) mc
  else if pyStrip part = "win" then assocUpd "super" 0 (· + count) mc
  else mc

/-- DataAnalyzer._add_compound_modifier_counts (lines 735-745). -/
def add_compound_modifier_counts (modifier : String) (count : Nat)
    (mc : List (String × Nat)) : List (String × Nat) :=
  (pySplitPlus modifier).foldl (compoundPartStep count) mc

/-- The per-combination body of the counting loop in
analyze_modifier_usage: a base bucket key is counted directly, a
compound string is decomposed, anything else is dropped. -/
def comboStep (mc : List (String × Nat)) (mp : String × ModEntry) : List (String × Nat) :=
  if (assocFind mp.1 mc).isSome then assocUpd mp.1 0 (· + mp.2.count) mc
  else if pyContainsPlus mp.1 then add_compound_modifier_counts mp.1 mp.2.count mc
  else mc

/-- The counting loop of DataAnalyzer.analyze_modifier_usage (lines
174-184); the ratios, shortcut list and rankings computed afterwards
read only from this dict. -/
def analyze_modifier_counts (key_stats : List (String × KeyEntry)) : List (String × Nat) :=
  key_stats.foldl
    (fun mc kp => kp.2.modifier_combinations.foldl comboStep mc)
    initialModifierCounts

end DataAnalyzer

/-- The key list of a modifier-counts dict never changes: every update
hits an existing bucket ("super" is present from initialization). -/
theorem assocUpd_keys_of_mem (k : String) (d0 : α) (f : α → α) (l : List (String × α))
    (h : (assocFind k l).isSome) :
    (assocUpd k d0 f l).map Prod.fst = l.map Prod.fst := by
  induction l with
  | nil => simp [assocFind] at h
  | cons p rest ih =>
      obtain ⟨k₁, v⟩ := p
      by_cases hk : k₁ = k
      · simp [assocUpd, hk]
      · simp [assocFind, hk] at h
        simp [assocUpd, hk, ih h]

theorem assocFind_isSome_of_key_mem (k : String) (l : List (String × α))
    (h : k ∈ l.map Prod.fst) : (assocFind k l).isSome := by
  induction l with
  | nil => simp at h
  | cons p rest ih =>
      obtain ⟨k₁, v⟩ := p
      simp only [List.map_cons, List.mem_cons] at h
      by_cases hk : k₁ = k
      · simp [assocFind, hk]
      · rcases h with h | h
        · exact absurd h.symm hk
        · simp [assocFind, hk, ih h]

theorem compoundPartStep_keys (count : Nat) (mc : List (String × Nat)) (part : String)
    (hs : "super" ∈ mc.map Prod.fst) :
    (DataAnalyzer.compoundPartStep count mc part).map Prod.fst = mc.map Prod.fst := by
  unfold DataAnalyzer.compoundPartStep
  by_cases h1 : (assocFind (pyStrip part) mc).isSome
  · simp [h1, assocUpd_keys_of_mem _ _ _ _ h1]
  · by_cases h2 : pyStrip part = "win"
    · rw [h2] at h1
      simp [h1, h2, assocUpd_keys_of_mem _ _ _ _ (assocFind_isSome_of_key_mem _ _ hs)]
    · simp [h1, h2]

theorem add_compound_modifier_counts_keys (modifier : String) (count : Nat)
    (mc : List (String × Nat)) (hs : "super" ∈ mc.map Prod.fst) :
    (DataAnalyzer.add_compound_modifier_counts modifier count mc).map Prod.fst
      = mc.map Prod.fst := by
  unfold DataAnalyzer.add_compound_modifier_counts
  generalize pySplitPlus modifier = parts
  induction parts generalizing mc with
  | nil => rfl
  | cons p ps ih =>
      rw [List.foldl_cons]
      have h1 := compoundPartStep_keys count mc p hs
      rw [ih (DataAnalyzer.compoundPartStep count mc p) (by rw [h1]; exact hs), h1]

theorem comboStep_keys (mc : List (String × Nat)) (mp : String × ModEntry)
    (hs : "super" ∈ mc.map Prod.fst) :
    (DataAnalyzer.comboStep mc mp).map Prod.fst = mc.map Prod.fst := by
  unfold DataAnalyzer.comboStep
  by_cases h1 : (assocFind mp.1 mc).isSome
  · simp [h1, assocUpd_keys_of_mem _ _ _ _ h1]
  · by_cases h2 : pyContainsPlus mp.1
    · simp [h1, h2, add_compound_modifier_counts_keys mp.1 mp.2.count mc hs]
    · simp [h1, h2]

theorem combos_foldl_keys (combos : List (String × ModEntry)) (mc : List (String × Nat))
    (hs : "super" ∈ mc.map Prod.fst) :
    (combos.foldl DataAnalyzer.comboStep mc).map Prod.fst = mc.map Prod.fst := by
  induction combos generalizing mc with
  | nil => rfl
  | cons mp rest ih =>
      rw [List.foldl_cons]
      have h1 := comboStep_keys mc mp hs
      rw [ih _ (by rw [h1]; exact hs), h1]

theorem analyze_modifier_counts_keys (ks : List (String × KeyEntry)) :
    (DataAnalyzer.analyze_modifier_counts ks).map Prod.fst
      = ["none", "shift", "ctrl", "alt", "super"] := by
  unfold DataAnalyzer.analyze_modifier_counts
  have hgen : ∀ mc : List (String × Nat), "super" ∈ mc.map Prod.fst →
      (ks.foldl (fun mc kp => kp.2.modifier_combinations.foldl DataAnalyzer.comboStep mc)
        mc).map Prod.fst = mc.map Prod.fst := by
    induction ks with
    | nil =>
        intro mc _
        rfl
    | cons kp rest ih =>
        intro mc h
        rw [List.foldl_cons]
        have h1 := combos_foldl_keys kp.2.modifier_combinations mc h
        rw [ih _ (by rw [h1]; exact h), h1]
  rw [hgen DataAnalyzer.initialModifierCounts (by simp [DataAnalyzer.initialModifierCounts])]
  rfl

/-- A key entry whose only modifier combination is the bare string "win"
with `c` presses: produced whenever a keystroke is recorded while only
the win modifier is held (the logger canonicalizes that set to "win"). -/
def bareWinStats (c : Nat) : List (String × KeyEntry) :=
  [("91", { key_name := "Win"
            count := c
            modifier_combinations := [("win", { count := c, preceded_by := [] })] })]

/-- C9 counterexample: the claim says analyze_modifier_usage aggregates
all ModifierEntry counts across every key into per-base-modifier totals.
A bare "win" combination (5 presses with only the win key held) is
neither one of the five bucket keys nor contains "+", so the loop drops
it: every bucket, the super bucket included, stays 0 and the 5 recorded
presses are missing from the aggregate. -/
theorem C9_counterexample_bare_win_dropped :
    DataAnalyzer.analyze_modifier_counts (bareWinStats 5)
        = DataAnalyzer.initialModifierCounts
      ∧ assocFind "super" (DataAnalyzer.analyze_modifier_counts (bareWinStats 5)) = some 0 :=
  ⟨rfl, rfl⟩

/-- C9 amended: the aggregation keeps only the five fixed buckets — a
compound combination is never retained as a separate exact-combination
bucket — and a compound combination such as "ctrl+shift" contributes its
count to both the ctrl total and the shift total by decomposition; but a
combination that is neither a bucket key nor compound (the bare "win"
string) is dropped rather than aggregated. -/
theorem C9_compound_double_counted (kc kn : String) (c : Nat) :
    (∀ ks : List (String × KeyEntry),
        (DataAnalyzer.analyze_modifier_counts ks).map Prod.fst
          = ["none", "shift", "ctrl", "alt", "super"])
      ∧ DataAnalyzer.analyze_modifier_counts
            [(kc, { key_name := kn
                    count := c
                    modifier_combinations := [("ctrl+shift", { count := c, preceded_by := [] })] })]
          = [("none", 0), ("shift", c), ("ctrl", c), ("alt", 0), ("super", 0)]
      ∧ DataAnalyzer.analyze_modifier_counts (bareWinStats c)
          = DataAnalyzer.initialModifierCounts := by
  refine ⟨analyze_modifier_counts_keys, ?_, ?_⟩
  · simp [DataAnalyzer.analyze_modifier_counts, DataAnalyzer.comboStep,
      DataAnalyzer.add_compound_modifier_counts, DataAnalyzer.compoundPartStep,
      DataAnalyzer.initialModifierCounts, assocFind, assocUpd, pySplitPlus, splitChar,
      pyStrip, pyContainsPlus]
  · rfl

end KeyboardMonitor
